import Mathlib

/-!
Shallow embedding of the core pipeline of the API-Analysa repository
(`src/services/parser_service.py`, `src/services/biomarker_service.py`,
`src/services/ocr_service.py`).

Modelling conventions:
* Python floats are modelled as `Rat` (all arithmetic in the analysed code is
  addition, subtraction, division and comparison on decimal inputs).
* Python dicts that may lack keys are modelled as structures with `Option`
  fields; subscript access (`d["k"]`, which raises `KeyError` when the key is
  absent) is `getKey`, returning `Except`; `d.get("k")` is the plain `Option`.
* A Python `try/except` block around pure code is modelled by running the body
  in `Except String` and mapping the `error` case to the handler's result.
  Exception message texts are modelled schematically (e.g. `"KeyError: value"`);
  no claim depends on their exact spelling, only on which detail they carry.
* Timestamps (`created_at`, `generated_at`) and the md5 `text_hash` are
  produced by external libraries and carry no analysable content; they are
  omitted from the records.
-/

namespace ApiAnalysa

/-- Subscript access `d["k"]` on a possibly missing key: raises `KeyError`. -/
def getKey {α : Type} (v : Option α) (k : String) : Except String α :=
  match v with
  | some x => Except.ok x
  | none => Except.error ("KeyError: " ++ k)

/-! ## parser_service.py: `BiomarkerParser._normalize_value` -/

/-- `re.sub(r'[^\d.,]', '', value_str)`: keep only digits, dots and commas. -/
def stripNonNumeric (s : String) : String :=
  String.mk (s.toList.filter fun c => c.isDigit || c == '.' || c == ',')

/-- `clean_value.replace(',', '.')`. -/
def commaToDot (s : String) : String :=
  String.mk (s.toList.map fun c => if c == ',' then '.' else c)

/-- Digit characters to a natural number (most significant first). -/
def digitsToNat (cs : List Char) : Nat :=
  cs.foldl (fun acc c => acc * 10 + (c.toNat - '0'.toNat)) 0

/-- Split a character list at its first dot: integer part, and the remainder
after the dot when a dot occurs. -/
def splitAtDot : List Char → List Char × Option (List Char)
  | [] => ([], none)
  | c :: rest =>
    if c == '.' then ([], some rest)
    else
      let p := splitAtDot rest
      (c :: p.1, p.2)

/-- Python `float(s)` restricted to strings made of digits and dots, the only
shape `_normalize_value` feeds it: at most one dot and at least one digit
parse; everything else raises `ValueError` (modelled as `none`). -/
def pyFloat? (s : String) : Option Rat :=
  let cs := s.toList
  if cs.all (fun c => c.isDigit || c == '.') then
    let p := splitAtDot cs
    match p.2 with
    | none => if p.1.isEmpty then none else some (digitsToNat p.1 : Rat)
    | some fracPart =>
        if fracPart.contains '.' then none
        else if p.1.isEmpty && fracPart.isEmpty then none
        else some ((digitsToNat p.1 : Rat) +
                   (digitsToNat fracPart : Rat) / (10 ^ fracPart.length : Nat))
  else none

/-- `BiomarkerParser._normalize_value`: strip non-numeric characters, turn the
comma separator into a dot, parse as float; on `ValueError`/`TypeError`
return `0.0`. -/
def normalize_value (value_str : String) : Rat :=
  match pyFloat? (commaToDot (stripNonNumeric value_str)) with
  | some v => v
  | none => 0

/-! ## biomarker_service.py: data model

A biomarker dict as handed to `_analyze_biomarker`: any key may be missing
(the parser always fills all of them, but the analyzer defends against
absent keys with `dict.get` defaults), so each field is an `Option` whose
`none` means "key absent".  Reference-range rows come from the database and
always carry every column, but a column value may be SQL `NULL`; their
`Option` fields mean "value is null". -/

structure BiomarkerDict where
  raw_name : Option String
  normalized_name : Option String
  value : Option Rat
  unit : Option String
  raw_text : Option String
  confidence : Option Rat
  deriving DecidableEq

structure RefRangeDict where
  id : Option String
  normalized_name : Option String
  unit : Option String
  min_value : Option Rat
  max_value : Option Rat
  deriving DecidableEq

structure ValueAnalysis where
  status : String
  interpretation : String
  severity : String
  deriving DecidableEq

structure AnalyzedBiomarker where
  exam_id : String
  name : String
  normalized_name : String
  value : Rat
  unit : String
  reference_range_id : Option String
  status : String
  confidence_score : Rat
  raw_text : String
  min_reference : Option Rat
  max_reference : Option Rat
  interpretation : String
  severity : String
  deriving DecidableEq

/-! ## biomarker_service.py: unit compatibility and reference matching -/

/-- `str.lower()`: lower each character.  `Char.toLower` lowers ASCII
letters; every string this code lowers is already lowercase outside ASCII
(`μ`, `³`, accented letters carry no case that matters here). -/
def pyLower (s : String) : String :=
  String.mk (s.toList.map Char.toLower)

/-- `str.upper()`, the default of `normalized_names.get`. -/
def pyUpper (s : String) : String :=
  String.mk (s.toList.map Char.toUpper)

/-- `unit.lower().replace(" ", "")`. -/
def normalizeUnit (u : String) : String :=
  String.mk ((pyLower u).toList.filter fun c => c != ' ')

/-- The `equivalent_units` table of `_units_are_compatible`, with the
duplicated list entries of the source kept. -/
def equivalentUnits : List (String × List String) :=
  [("g/dl", ["g/dl", "g/dl", "g/l", "g/l"]),
   ("mg/dl", ["mg/dl", "mg/dl", "mg/l", "mg/l"]),
   ("meq/l", ["meq/l", "meq/l", "mmol/l", "mmol/l"]),
   ("u/l", ["u/l", "u/l", "ui/l", "ui/l"]),
   ("cel/μl", ["cel/μl", "cel/ul", "cel/mm³", "cel/mm3"]),
   ("%", ["%", "percentual", "percent"])]

/-- `BiomarkerService._units_are_compatible`. -/
def units_are_compatible (unit1 unit2 : String) : Bool :=
  let u1 := normalizeUnit unit1
  let u2 := normalizeUnit unit2
  if equivalentUnits.any (fun p => p.2.contains u1 && p.2.contains u2) then
    true
  else
    u1 == u2

/-- Attribute access `x.lower()` on a nullable string: `None.lower()` raises
`AttributeError`. -/
def lowerOrRaise (v : Option String) : Except String String :=
  match v with
  | some s => Except.ok (pyLower s)
  | none => Except.error "AttributeError: NoneType has no attribute lower"

/-- The search loop of `_find_matching_reference`, inside its `try`: the
first range whose normalized name matches case-insensitively and whose unit
is compatible; an exception while examining ANY row aborts the whole
search. -/
def findReferenceLoop (bName : String) (bUnit : Option String) :
    List RefRangeDict → Except String (Option RefRangeDict)
  | [] => Except.ok none
  | r :: rest =>
    match lowerOrRaise r.normalized_name with
    | Except.error e => Except.error e
    | Except.ok rName =>
      if rName == bName then
        match getKey bUnit "unit" with
        | Except.error e => Except.error e
        | Except.ok bu =>
          match lowerOrRaise r.unit with
          | Except.error e => Except.error e
          | Except.ok ru =>
            -- `_units_are_compatible` lowers both arguments again; passing
            -- the already-lowered reference unit is observationally
            -- identical.
            if units_are_compatible bu ru then
              Except.ok (some r)
            else
              findReferenceLoop bName bUnit rest
      else
        findReferenceLoop bName bUnit rest

/-- `BiomarkerService._find_matching_reference`: the `except` branch turns
any exception into `None`. -/
def find_matching_reference (b : BiomarkerDict) (ranges : List RefRangeDict) :
    Option RefRangeDict :=
  match getKey b.normalized_name "normalized_name" with
  | Except.error _ => none
  | Except.ok bName =>
    match findReferenceLoop (pyLower bName) b.unit ranges with
    | Except.ok r => r
    | Except.error _ => none

/-! ## biomarker_service.py: severity and value analysis -/

/-- `BiomarkerService._calculate_severity`.  The `try/except` catches exactly
the `ZeroDivisionError` raised when the reference bound is `0`; the guard
below is its pure translation. -/
def calculate_severity (value reference : Rat) (direction : String) : String :=
  if reference = 0 then "unknown"
  else
    let deviation :=
      if direction == "low" then (reference - value) / reference * 100
      else (value - reference) / reference * 100
    if deviation < 10 then "mild"
    else if deviation < 25 then "moderate"
    else if deviation < 50 then "severe"
    else "critical"

/-- String formatting of a rational in an interpretation message; stands in
for Python float formatting (no claim inspects these digits). -/
def ratStr (v : Rat) : String :=
  toString v.num ++ (if v.den = 1 then "" else "/" ++ toString v.den)

/-- Python `str` of a nullable unit: `str(None)` is `"None"`. -/
def unitStr (u : Option String) : String :=
  match u with
  | some s => s
  | none => "None"

/-- `BiomarkerService._convert_unit`: currently the identity. -/
def convert_unit (value : Rat) (_from_unit _to_unit : String) : Rat :=
  value

/-- `BiomarkerService._analyze_value`.  Inside its `try` no operation can
raise (the matched range always carries a `unit` column), so the body is
pure; the `except` branch of the source is unreachable in this model. -/
def analyze_value (value : Rat) (unit : String)
    (reference_range : Option RefRangeDict) : ValueAnalysis :=
  match reference_range with
  | none =>
      { status := "unknown",
        interpretation := "Range de referência não encontrado",
        severity := "unknown" }
  | some r =>
      match r.min_value, r.max_value with
      | some min_ref, some max_ref =>
          let converted_value := convert_unit value unit (unitStr r.unit)
          let us := unitStr r.unit
          if converted_value < min_ref then
            { status := "low",
              interpretation := "Valor abaixo do normal (" ++ ratStr converted_value
                ++ " " ++ us ++ " < " ++ ratStr min_ref ++ " " ++ us ++ ")",
              severity := calculate_severity converted_value min_ref "low" }
          else if converted_value > max_ref then
            { status := "high",
              interpretation := "Valor acima do normal (" ++ ratStr converted_value
                ++ " " ++ us ++ " > " ++ ratStr max_ref ++ " " ++ us ++ ")",
              severity := calculate_severity converted_value max_ref "high" }
          else
            { status := "normal",
              interpretation := "Valor dentro do normal (" ++ ratStr converted_value
                ++ " " ++ us ++ ")",
              severity := "normal" }
      | _, _ =>
          { status := "unknown",
            interpretation := "Range de referência incompleto",
            severity := "unknown" }

/-! ## biomarker_service.py: `_analyze_biomarker` and the batch loop -/

/-- The `try` body of `_analyze_biomarker`, with dict subscripts evaluated in
source order (`biomarker["value"]`, `biomarker["unit"]`, the analysis, then
the result-dict literal's lookups). -/
def analyze_biomarkerE (b : BiomarkerDict) (ranges : List RefRangeDict)
    (exam_id : String) : Except String AnalyzedBiomarker :=
  let reference_range := find_matching_reference b ranges
  match getKey b.value "value" with
  | Except.error e => Except.error e
  | Except.ok v =>
    match getKey b.unit "unit" with
    | Except.error e => Except.error e
    | Except.ok u =>
      let analysis := analyze_value v u reference_range
      match getKey b.raw_name "raw_name" with
      | Except.error e => Except.error e
      | Except.ok rawName =>
        match getKey b.normalized_name "normalized_name" with
        | Except.error e => Except.error e
        | Except.ok normName =>
          match getKey b.confidence "confidence" with
          | Except.error e => Except.error e
          | Except.ok conf =>
            match getKey b.raw_text "raw_text" with
            | Except.error e => Except.error e
            | Except.ok rawText =>
              Except.ok
                { exam_id := exam_id,
                  name := rawName,
                  normalized_name := normName,
                  value := v,
                  unit := u,
                  reference_range_id := reference_range.bind (·.id),
                  status := analysis.status,
                  confidence_score := conf,
                  raw_text := rawText,
                  min_reference := reference_range.bind (·.min_value),
                  max_reference := reference_range.bind (·.max_value),
                  interpretation := analysis.interpretation,
                  severity := analysis.severity }

/-- `BiomarkerService._analyze_biomarker`: on an exception, the error record
(whose dict omits the reference fields; modelled as `none`). -/
def analyze_biomarker (b : BiomarkerDict) (ranges : List RefRangeDict)
    (exam_id : String) : AnalyzedBiomarker :=
  match analyze_biomarkerE b ranges exam_id with
  | Except.ok r => r
  | Except.error e =>
      { exam_id := exam_id,
        name := (b.raw_name).getD "",
        normalized_name := (b.normalized_name).getD "",
        value := (b.value).getD 0,
        unit := (b.unit).getD "",
        reference_range_id := none,
        status := "error",
        confidence_score := 0,
        raw_text := (b.raw_text).getD "",
        min_reference := none,
        max_reference := none,
        interpretation := "Erro na análise: " ++ e,
        severity := "unknown" }

/-- The analysis loop of `process_exam_biomarkers` (lines 44-52): every
parsed biomarker is analyzed and appended. -/
def process_biomarkers (bs : List BiomarkerDict) (ranges : List RefRangeDict)
    (exam_id : String) : List AnalyzedBiomarker :=
  bs.map fun b => analyze_biomarker b ranges exam_id

/-! ## biomarker_service.py: `_generate_summary` -/

/-- `severity_counts[severity] = severity_counts.get(severity, 0) + 1` on an
insertion-ordered dict. -/
def bumpCount : List (String × Nat) → String → List (String × Nat)
  | [], k => [(k, 1)]
  | (k', n) :: rest, k =>
    if k' == k then (k', n + 1) :: rest else (k', n) :: bumpCount rest k

/-- `severity_counts.get(k, 0)`. -/
def countsGet (counts : List (String × Nat)) (k : String) : Nat :=
  match counts.find? (fun p => p.1 == k) with
  | some p => p.2
  | none => 0

/-- Sum of the severity histogram's values. -/
def sumCounts (counts : List (String × Nat)) : Nat :=
  counts.foldl (fun acc p => acc + p.2) 0

structure Summary where
  total_biomarkers : Nat
  normal_count : Nat
  abnormal_count : Nat
  severity_breakdown : List (String × Nat)
  critical_count : Nat
  summary_text : String
  deriving DecidableEq

/-- `BiomarkerService._generate_summary_text`. -/
def generate_summary_text (total normal abnormal : Nat)
    (severity_counts : List (String × Nat))
    (critical_biomarkers : List AnalyzedBiomarker) : String :=
  let base :=
    ["Análise de " ++ toString total ++ " biomarcadores:",
     "- " ++ toString normal ++ " valores normais",
     "- " ++ toString abnormal ++ " valores alterados"]
  let base := base ++
    (if countsGet severity_counts "mild" > 0 then
      ["- " ++ toString (countsGet severity_counts "mild") ++ " alterações leves"] else [])
  let base := base ++
    (if countsGet severity_counts "moderate" > 0 then
      ["- " ++ toString (countsGet severity_counts "moderate") ++ " alterações moderadas"] else [])
  let base := base ++
    (if countsGet severity_counts "severe" > 0 then
      ["- " ++ toString (countsGet severity_counts "severe") ++ " alterações graves"] else [])
  let base := base ++
    (if countsGet severity_counts "critical" > 0 then
      ["- " ++ toString (countsGet severity_counts "critical") ++ " alterações críticas"] else [])
  let base := base ++
    (if critical_biomarkers.isEmpty then []
     else
      ["\nBiomarcadores críticos:"] ++
      ((critical_biomarkers.take 3).map fun b =>
        "- " ++ b.normalized_name ++ ": " ++ ratStr b.value ++ " " ++ b.unit
          ++ " (" ++ b.interpretation ++ ")") ++
      (if critical_biomarkers.length > 3 then
        ["... e mais " ++ toString (critical_biomarkers.length - 3) ++ " biomarcadores críticos"]
       else []))
  String.intercalate "\n" base

/-- `BiomarkerService._generate_summary` (its `try` body never raises on
well-typed records; `generated_at` omitted, see header). -/
def generate_summary (biomarkers : List AnalyzedBiomarker) : Summary :=
  let total_count := biomarkers.length
  let normal_count := (biomarkers.filter fun b => b.status == "normal").length
  let abnormal_count := total_count - normal_count
  let severity_counts := biomarkers.foldl (fun acc b => bumpCount acc b.severity) []
  let critical_biomarkers := biomarkers.filter fun b => b.severity == "critical"
  { total_biomarkers := total_count,
    normal_count := normal_count,
    abnormal_count := abnormal_count,
    severity_breakdown := severity_counts,
    critical_count := critical_biomarkers.length,
    summary_text := generate_summary_text total_count normal_count abnormal_count
      severity_counts critical_biomarkers }

/-! ## ocr_service.py: confidence scoring and the text/plain path

The pdf and image branches of `process_file` call the external OCR engine
(`pytesseract`, `pdf2image`) and are outside this pure model; the
`text/plain` branch reads the file content verbatim.  `process_file` is
modelled on the UTF-8-decoded content (the temp-file round trip of
`process_file_from_bytes` writes the bytes unchanged; an empty byte
sequence decodes to the empty string).  The md5 `text_hash` is omitted. -/

inductive OcrOutcome where
  | ok (ocr_text : String) (confidence : Rat) (text_length : Nat)
  | err (msg : String)
  deriving DecidableEq

/-- `OCRService._calculate_confidence`: the weighted text-quality heuristic.
The decimal weights of the source are exact here (`Rat`), where Python
rounds them to binary floats; no claim depends on that rounding. -/
def calculate_confidence (text : String) : Rat :=
  if text == "" then 0
  else
    let total : Rat := (text.length : Nat)
    let alnum : Rat := ((text.toList.filter fun c => c.isAlphanum).length : Nat)
    let spaces : Rat := ((text.toList.filter fun c => c == ' ').length : Nat)
    let qmarks : Rat := ((text.toList.filter fun c => c == '?').length : Nat)
    let confidence :=
      alnum / total * 0.6 + spaces / total * 0.2 + (1 - qmarks / total) * 0.2
    min (max (confidence * 100) 0) 100

/-- `OCRService.process_file` on the `text/plain` branch:
`_read_text_file` returns the decoded content verbatim, then the result
dict carries the text, its confidence and its length. -/
def process_file_text (decoded_content : String) : OcrOutcome :=
  OcrOutcome.ok decoded_content (calculate_confidence decoded_content)
    decoded_content.length

/-! ## parser_service.py: catalog and recognition pass

`re.findall` is an external library primitive; `parse_text` is embedded
parametrically in it.  A findall function takes a pattern string and the
text and returns the list of matches in text order, each match being the
tuple of its captured groups (every catalog pattern has three groups:
name alias, numeric value, unit). -/

def biomarker_patterns : List (String × List String) :=
  [("hemoglobina",
    [r"(?i)(hemoglobina|hb)\s*[:=]?\s*(\d+[.,]?\d*)\s*(g/dl|g/dL|g/l|g/L)",
     r"(?i)(hb)\s*[:=]?\s*(\d+[.,]?\d*)\s*(g/dl|g/dL|g/l|g/L)"]),
   ("hematocrito",
    [r"(?i)(hematócrito|hematocrito|ht|hct)\s*[:=]?\s*(\d+[.,]?\d*)\s*(%|percentual)",
     r"(?i)(ht|hct)\s*[:=]?\s*(\d+[.,]?\d*)\s*(%|percentual)"]),
   ("leucocitos",
    [r"(?i)(leucócitos|leucocitos|wbc|gb)\s*[:=]?\s*(\d+[.,]?\d*)\s*(cel/μl|cel/ul|cel/mm³|cel/mm3)",
     r"(?i)(wbc|gb)\s*[:=]?\s*(\d+[.,]?\d*)\s*(cel/μl|cel/ul|cel/mm³|cel/mm3)"]),
   ("plaquetas",
    [r"(?i)(plaquetas|plt|plq)\s*[:=]?\s*(\d+[.,]?\d*)\s*(cel/μl|cel/ul|cel/mm³|cel/mm3)",
     r"(?i)(plt|plq)\s*[:=]?\s*(\d+[.,]?\d*)\s*(cel/μl|cel/ul|cel/mm³|cel/mm3)"]),
   ("glicose",
    [r"(?i)(glicose|glucose|glu)\s*[:=]?\s*(\d+[.,]?\d*)\s*(mg/dl|mg/dL|mg/l|mg/L|mmol/l|mmol/L)",
     r"(?i)(glu)\s*[:=]?\s*(\d+[.,]?\d*)\s*(mg/dl|mg/dL|mg/l|mg/L|mmol/l|mmol/L)"]),
   ("creatinina",
    [r"(?i)(creatinina|cr)\s*[:=]?\s*(\d+[.,]?\d*)\s*(mg/dl|mg/dL|mg/l|mg/L|μmol/l|umol/l)",
     r"(?i)(cr)\s*[:=]?\s*(\d+[.,]?\d*)\s*(mg/dl|mg/dL|mg/l|mg/L|μmol/l|umol/l)"]),
   ("ureia",
    [r"(?i)(ureia|bun)\s*[:=]?\s*(\d+[.,]?\d*)\s*(mg/dl|mg/dL|mg/l|mg/L|mmol/l|mmol/L)",
     r"(?i)(bun)\s*[:=]?\s*(\d+[.,]?\d*)\s*(mg/dl|mg/dL|mg/l|mg/L|mmol/l|mmol/L)"]),
   ("colesterol_total",
    [r"(?i)(colesterol total|colesterol|ct|tc)\s*[:=]?\s*(\d+[.,]?\d*)\s*(mg/dl|mg/dL|mg/l|mg/L|mmol/l|mmol/L)",
     r"(?i)(ct|tc)\s*[:=]?\s*(\d+[.,]?\d*)\s*(mg/dl|mg/dL|mg/l|mg/L|mmol/l|mmol/L)"]),
   ("hdl",
    [r"(?i)(hdl|colesterol hdl)\s*[:=]?\s*(\d+[.,]?\d*)\s*(mg/dl|mg/dL|mg/l|mg/L|mmol/l|mmol/L)",
     r"(?i)(hdl)\s*[:=]?\s*(\d+[.,]?\d*)\s*(mg/dl|mg/dL|mg/l|mg/L|mmol/l|mmol/L)"]),
   ("ldl",
    [r"(?i)(ldl|colesterol ldl)\s*[:=]?\s*(\d+[.,]?\d*)\s*(mg/dl|mg/dL|mg/l|mg/L|mmol/l|mmol/L)",
     r"(?i)(ldl)\s*[:=]?\s*(\d+[.,]?\d*)\s*(mg/dl|mg/dL|mg/l|mg/L|mmol/l|mmol/L)"]),
   ("triglicerides",
    [r"(?i)(triglicerídeos|triglicerides|tg)\s*[:=]?\s*(\d+[.,]?\d*)\s*(mg/dl|mg/dL|mg/l|mg/L|mmol/l|mmol/L)",
     r"(?i)(tg)\s*[:=]?\s*(\d+[.,]?\d*)\s*(mg/dl|mg/dL|mg/l|mg/L|mmol/l|mmol/L)"]),
   ("sodio",
    [r"(?i)(sódio|sodio|na)\s*[:=]?\s*(\d+[.,]?\d*)\s*(mEq/l|meq/l|mmol/l|mmol/L)",
     r"(?i)(na)\s*[:=]?\s*(\d+[.,]?\d*)\s*(mEq/l|meq/l|mmol/l|mmol/L)"]),
   ("potassio",
    [r"(?i)(potássio|potassio|k)\s*[:=]?\s*(\d+[.,]?\d*)\s*(mEq/l|meq/l|mmol/l|mmol/L)",
     r"(?i)(k)\s*[:=]?\s*(\d+[.,]?\d*)\s*(mEq/l|meq/l|mmol/l|mmol/L)"]),
   ("cloro",
    [r"(?i)(cloro|cl)\s*[:=]?\s*(\d+[.,]?\d*)\s*(mEq/l|meq/l|mmol/l|mmol/L)",
     r"(?i)(cl)\s*[:=]?\s*(\d+[.,]?\d*)\s*(mEq/l|meq/l|mmol/l|mmol/L)"]),
   ("tgo",
    [r"(?i)(tgo|ast|asat)\s*[:=]?\s*(\d+[.,]?\d*)\s*(U/l|u/l|UI/l|ui/l)",
     r"(?i)(ast|asat)\s*[:=]?\s*(\d+[.,]?\d*)\s*(U/l|u/l|UI/l|ui/l)"]),
   ("tgp",
    [r"(?i)(tgp|alt|alat)\s*[:=]?\s*(\d+[.,]?\d*)\s*(U/l|u/l|UI/l|ui/l)",
     r"(?i)(alt|alat)\s*[:=]?\s*(\d+[.,]?\d*)\s*(U/l|u/l|UI/l|ui/l)"]),
   ("fosfatase_alcalina",
    [r"(?i)(fosfatase alcalina|fa|alp)\s*[:=]?\s*(\d+[.,]?\d*)\s*(U/l|u/l|UI/l|ui/l)",
     r"(?i)(fa|alp)\s*[:=]?\s*(\d+[.,]?\d*)\s*(U/l|u/l|UI/l|ui/l)"]),
   ("bilirrubina_total",
    [r"(?i)(bilirrubina total|bilirrubina|bt)\s*[:=]?\s*(\d+[.,]?\d*)\s*(mg/dl|mg/dL|mg/l|mg/L|μmol/l|umol/l)",
     r"(?i)(bt)\s*[:=]?\s*(\d+[.,]?\d*)\s*(mg/dl|mg/dL|mg/l|mg/L|μmol/l|umol/l)"])]

def normalized_names : List (String × String) :=
  [("hemoglobina", "Hb"), ("hematocrito", "Ht"), ("leucocitos", "WBC"),
   ("plaquetas", "Plt"), ("glicose", "Glu"), ("creatinina", "Cr"),
   ("ureia", "Ureia"), ("colesterol_total", "CT"), ("hdl", "HDL"),
   ("ldl", "LDL"), ("triglicerides", "TG"), ("sodio", "Na"),
   ("potassio", "K"), ("cloro", "Cl"), ("tgo", "TGO"), ("tgp", "TGP"),
   ("fosfatase_alcalina", "FA"), ("bilirrubina_total", "BT")]

/-- `dict.get(k, default)` on a string-keyed table. -/
def lookupD (m : List (String × String)) (k d : String) : String :=
  match m.find? (fun p => p.1 == k) with
  | some p => p.2
  | none => d

/-- `BiomarkerParser._infer_unit`'s `unit_map`. -/
def unit_map : List (String × String) :=
  [("hemoglobina", "g/dL"), ("hematocrito", "%"), ("leucocitos", "cel/μL"),
   ("plaquetas", "cel/μL"), ("glicose", "mg/dL"), ("creatinina", "mg/dL"),
   ("ureia", "mg/dL"), ("colesterol_total", "mg/dL"), ("hdl", "mg/dL"),
   ("ldl", "mg/dL"), ("triglicerides", "mg/dL"), ("sodio", "mEq/L"),
   ("potassio", "mEq/L"), ("cloro", "mEq/L"), ("tgo", "U/L"),
   ("tgp", "U/L"), ("fosfatase_alcalina", "U/L"),
   ("bilirrubina_total", "mg/dL")]

/-- `BiomarkerParser._infer_unit`. -/
def infer_unit (biomarker_type : String) : String :=
  lookupD unit_map biomarker_type ""

/-- `str.strip()`: drop whitespace from both ends. -/
def pyStrip (s : String) : String :=
  String.mk (((s.toList.dropWhile Char.isWhitespace).reverse.dropWhile
    Char.isWhitespace).reverse)

def listStartsWith : List Char → List Char → Bool
  | _, [] => true
  | [], _ :: _ => false
  | c :: cs, p :: ps => c == p && listStartsWith cs ps

def listHasSubstr (pat : List Char) : List Char → Bool
  | [] => pat.isEmpty
  | c :: rest => listStartsWith (c :: rest) pat || listHasSubstr pat rest

/-- Python `pat in s` on strings. -/
def strContains (s pat : String) : Bool :=
  listHasSubstr pat.toList s.toList

/-- `BiomarkerParser._calculate_parsing_confidence`. -/
def calculate_parsing_confidence (raw_name : String) (value : Rat) : Rat :=
  let c1 : Rat := if (pyStrip raw_name).length > 0 then 30 else 0
  let c2 : Rat := if value > 0 then 40 else 0
  let c3 : Rat :=
    if ["hemoglobina", "glicose", "creatinina"].any
        (fun kw => strContains (pyLower raw_name) kw) then 30 else 0
  min (c1 + c2 + c3) 100

structure RawBiomarker where
  type : String
  normalized_name : String
  raw_name : String
  value : Rat
  unit : String
  raw_text : String
  confidence : Rat
  deriving DecidableEq

/-- The inner match loop of `parse_text`: the first match with at least two
groups (in the source every match is a 3-group tuple, so this is the first
match). -/
def firstValidMatch : List (List String) → Option (List String)
  | [] => none
  | m :: rest => if 2 ≤ m.length then some m else firstValidMatch rest

/-- The per-entry alternative loop of `parse_text` with its
`found_this_type` flag: alternatives in declared order, stop at the first
one that contributes a match. -/
def tryPatterns (findall : String → String → List (List String))
    (text : String) : List String → Option (List String)
  | [] => none
  | p :: ps =>
    match firstValidMatch (findall p text) with
    | some m => some m
    | none => tryPatterns findall text ps

/-- Build the biomarker record from a match tuple (`parse_text` lines
148-159). -/
def mkBiomarker (biomarker_type : String) (m : List String) : RawBiomarker :=
  let value := normalize_value (m.getD 1 "")
  { type := biomarker_type,
    normalized_name := lookupD normalized_names biomarker_type (pyUpper biomarker_type),
    raw_name := pyStrip (m.getD 0 ""),
    value := value,
    unit := if 2 < m.length then m.getD 2 "" else infer_unit biomarker_type,
    raw_text := pyStrip (m.getD 0 ""),
    confidence := calculate_parsing_confidence (m.getD 0 "") value }

/-- `BiomarkerParser.parse_text`: the biomarker list it returns (the
wrapping result dict carries this list, its length and the mean
confidence). -/
def parse_text (findall : String → String → List (List String))
    (text : String) : List RawBiomarker :=
  biomarker_patterns.filterMap fun entry =>
    (tryPatterns findall text entry.2).map (mkBiomarker entry.1)

/-- Spec-side description of the per-entry policy, following the spec's
words: "On the first alternative that yields at least one match, take only
the first match of that alternative and stop trying further alternatives
for this catalog entry." -/
def specFirstAlternativeMatch (findall : String → String → List (List String))
    (text : String) (pats : List String) : Option (List String) :=
  (pats.find? fun p => !(findall p text).isEmpty).bind fun p =>
    (findall p text).head?

/-! ## Spec-side definitions and concrete fixtures -/

/-- Severity tier mapping as the spec words it: deviation (as a percentage)
`< 10` mild, `< 25` moderate, `< 50` severe, `>= 50` critical, with strict
less-than at each boundary. -/
def specSeverityTier (deviationPct : Rat) : String :=
  if deviationPct < 10 then "mild"
  else if deviationPct < 25 then "moderate"
  else if deviationPct < 50 then "severe"
  else "critical"

/-- A hemoglobin reference row [12, 16] g/dL. -/
def hbRange : RefRangeDict :=
  { id := some "ref-hb", normalized_name := some "hb", unit := some "g/dL",
    min_value := some 12, max_value := some 16 }

/-- A degenerate reference row whose two bounds are both 0. -/
def zeroRange : RefRangeDict :=
  { id := some "ref-zero", normalized_name := some "x", unit := some "mg/dL",
    min_value := some 0, max_value := some 0 }

/-- A glucose reference row whose `min_value` column is null. -/
def incompleteRange : RefRangeDict :=
  { id := some "ref-glu", normalized_name := some "glu", unit := some "mg/dL",
    min_value := none, max_value := some 100 }

/-- A well-formed parsed glucose observation. -/
def gluBiomarker : BiomarkerDict :=
  { raw_name := some "Glicose", normalized_name := some "Glu",
    value := some 95, unit := some "mg/dL", raw_text := some "Glicose",
    confidence := some 70 }

/-- A well-formed parsed hemoglobin observation. -/
def okBiomarkerA : BiomarkerDict :=
  { raw_name := some "Hemoglobina", normalized_name := some "Hb",
    value := some (14.5 : Rat), unit := some "g/dL",
    raw_text := some "Hemoglobina", confidence := some 100 }

/-- A malformed observation dict whose `value` key is absent. -/
def badBiomarker : BiomarkerDict :=
  { raw_name := some "Glicose", normalized_name := some "Glu",
    value := none, unit := some "mg/dL", raw_text := some "Glicose",
    confidence := some 70 }

/-- The first hemoglobin pattern alternative of the catalog. -/
def hbPattern1 : String :=
  r"(?i)(hemoglobina|hb)\s*[:=]?\s*(\d+[.,]?\d*)\s*(g/dl|g/dL|g/l|g/L)"

/-- A concrete findall oracle: the hemoglobin pattern matches once, every
other pattern matches nothing. -/
def demoFindall : String → String → List (List String) :=
  fun p _ =>
    if p == hbPattern1 then [["Hemoglobina", "14,5", "g/dL"]] else []

end ApiAnalysa

namespace ApiAnalysa

/-! ## Theorems -/

/-- C1: against a matched range with both bounds present (a well-formed
range, `min_value <= max_value`), the analyzer assigns status `low` when
the value is strictly below `min_value`, `high` when strictly above
`max_value`, and `normal` otherwise; with no matching range it assigns
status `unknown`, severity `unknown`, and an interpretation stating the
reference range was not found. -/
theorem claim_C1 (v : Rat) (u : String) (r : RefRangeDict) (mn mx : Rat)
    (hmin : r.min_value = some mn) (hmax : r.max_value = some mx)
    (hord : mn ≤ mx) :
    ((v < mn → (analyze_value v u (some r)).status = "low")
     ∧ (mx < v → (analyze_value v u (some r)).status = "high")
     ∧ (mn ≤ v → v ≤ mx → (analyze_value v u (some r)).status = "normal"))
    ∧ (∀ (v2 : Rat) (u2 : String),
        (analyze_value v2 u2 none).status = "unknown"
        ∧ (analyze_value v2 u2 none).severity = "unknown"
        ∧ (analyze_value v2 u2 none).interpretation
            = "Range de referência não encontrado") := by
  refine ⟨⟨?_, ?_, ?_⟩, fun v2 u2 => ⟨rfl, rfl, rfl⟩⟩
  · intro h
    simp [analyze_value, hmin, hmax, convert_unit, h]
  · intro h
    have h1 : ¬ v < mn := not_lt.2 (le_trans hord (le_of_lt h))
    simp [analyze_value, hmin, hmax, convert_unit, h1, h]
  · intro h1 h2
    have h1' : ¬ v < mn := not_lt.2 h1
    have h2' : ¬ mx < v := not_lt.2 h2
    simp [analyze_value, hmin, hmax, convert_unit, h1', h2']

/-- Witness for C1 at value 10 against the [12, 16] range. -/
theorem claim_C1_witness :
    (analyze_value 10 "g/dL" (some hbRange)).status = "low" :=
  (claim_C1 10 "g/dL" hbRange 12 16 rfl rfl (by norm_num)).1.1 (by norm_num)

/-- C2: for a non-zero breached bound, the computed severity is exactly the
spec's tier of the percentage deviation `(bound - value)/bound` (low) or
`(value - bound)/bound` (high); value 10 against [12, 16] is low/moderate,
and value 25 against a low bound of 100 is critical. -/
theorem claim_C2 :
    (∀ (value bound : Rat), bound ≠ 0 →
      calculate_severity value bound "low"
          = specSeverityTier ((bound - value) / bound * 100)
        ∧ calculate_severity value bound "high"
          = specSeverityTier ((value - bound) / bound * 100))
    ∧ (analyze_value 10 "g/dL" (some hbRange)).status = "low"
    ∧ (analyze_value 10 "g/dL" (some hbRange)).severity = "moderate"
    ∧ calculate_severity 25 100 "low" = "critical" := by
  have hmod : calculate_severity 10 12 "low" = "moderate" := by
    unfold calculate_severity
    rw [if_neg (by norm_num : ¬(12 : Rat) = 0)]
    norm_num
  refine ⟨?_, ?_, ?_, ?_⟩
  · intro value bound hb
    constructor
    · unfold calculate_severity specSeverityTier
      rw [if_neg hb]
      rfl
    · unfold calculate_severity specSeverityTier
      rw [if_neg hb]
      rfl
  · simp [analyze_value, hbRange, convert_unit]
    norm_num
  · have hlt : (10 : Rat) < 12 := by norm_num
    simp [analyze_value, hbRange, convert_unit, hlt, hmod]
  · unfold calculate_severity
    rw [if_neg (by norm_num : ¬(100 : Rat) = 0)]
    norm_num

/-- Witness for C2's general severity clause at value 25, bound 100. -/
theorem claim_C2_witness :
    calculate_severity 25 100 "low"
      = specSeverityTier ((100 - 25) / 100 * 100) :=
  (claim_C2.1 25 100 (by norm_num)).1

/-- C10: a matched range whose breached bound is 0 (both bounds 0, positive
value) classifies as high, and the severity computation's division by the
zero bound is guarded: severity is reported as `unknown` instead of a
division-by-zero failure. -/
theorem claim_C10 (v : Rat) (u : String) (r : RefRangeDict)
    (hmin : r.min_value = some 0) (hmax : r.max_value = some 0)
    (hv : 0 < v) :
    (analyze_value v u (some r)).status = "high"
    ∧ (analyze_value v u (some r)).severity = "unknown"
    ∧ calculate_severity v 0 "high" = "unknown" := by
  have h1 : ¬ v < (0 : Rat) := not_lt.2 (le_of_lt hv)
  have hsev : calculate_severity v 0 "high" = "unknown" := by
    unfold calculate_severity
    rw [if_pos rfl]
  refine ⟨?_, ?_, hsev⟩
  · simp [analyze_value, hmin, hmax, convert_unit, h1, hv]
  · simp [analyze_value, hmin, hmax, convert_unit, h1, hv, hsev]

/-- Witness for C10 at value 5 against the [0, 0] range. -/
theorem claim_C10_witness :
    (analyze_value 5 "mg/dL" (some zeroRange)).severity = "unknown" :=
  (claim_C10 5 "mg/dL" zeroRange rfl rfl (by norm_num)).2.1

/-- C4: value normalization turns both the comma and the dot spelling of
14.5 into the rational 14.5, an unparsable string into 0.0, and in general
any string whose cleaned form does not parse falls back to 0.0 instead of
failing. -/
theorem claim_C4 :
    normalize_value "14,5" = (14.5 : Rat)
    ∧ normalize_value "14.5" = (14.5 : Rat)
    ∧ normalize_value "invalid" = 0
    ∧ ∀ s : String,
        pyFloat? (commaToDot (stripNonNumeric s)) = none →
        normalize_value s = 0 := by
  refine ⟨?_, ?_, by decide, ?_⟩
  · show ((digitsToNat ['1', '4'] : Rat)
        + (digitsToNat ['5'] : Rat) / (10 ^ 1 : Nat)) = 14.5
    have h1 : digitsToNat ['1', '4'] = 14 := by decide
    have h2 : digitsToNat ['5'] = 5 := by decide
    rw [h1, h2]
    norm_num
  · show ((digitsToNat ['1', '4'] : Rat)
        + (digitsToNat ['5'] : Rat) / (10 ^ 1 : Nat)) = 14.5
    have h1 : digitsToNat ['1', '4'] = 14 := by decide
    have h2 : digitsToNat ['5'] = 5 := by decide
    rw [h1, h2]
    norm_num
  · intro s h
    unfold normalize_value
    rw [h]

/-- Witness for C4's unparsable-string clause at "abc". -/
theorem claim_C4_witness : normalize_value "abc" = 0 :=
  claim_C4.2.2.2 "abc" (by decide)

lemma foldl_add_snd (l : List (String × Nat)) :
    ∀ a : Nat, l.foldl (fun acc p => acc + p.2) a = a + (l.map Prod.snd).sum := by
  induction l with
  | nil => intro a; simp
  | cons p rest ih => intro a; simp [ih, Nat.add_assoc]

lemma sumCounts_eq_sum (l : List (String × Nat)) :
    sumCounts l = (l.map Prod.snd).sum := by
  unfold sumCounts
  rw [foldl_add_snd]
  simp

lemma sumCounts_bumpCount (l : List (String × Nat)) (k : String) :
    sumCounts (bumpCount l k) = sumCounts l + 1 := by
  induction l with
  | nil => simp [bumpCount, sumCounts, List.foldl]
  | cons p rest ih =>
    obtain ⟨k', n⟩ := p
    by_cases h : (k' == k) = true
    · simp [bumpCount, h, sumCounts_eq_sum]
      omega
    · simp only [bumpCount, h, if_false, Bool.false_eq_true, ite_false]
      simp only [sumCounts_eq_sum] at ih ⊢
      simp [ih]
      omega

lemma sumCounts_foldl_bump (bs : List AnalyzedBiomarker) :
    ∀ acc : List (String × Nat),
      sumCounts (bs.foldl (fun acc b => bumpCount acc b.severity) acc)
        = sumCounts acc + bs.length := by
  induction bs with
  | nil => intro acc; simp
  | cons b rest ih =>
    intro acc
    simp only [List.foldl_cons, List.length_cons]
    rw [ih, sumCounts_bumpCount]
    omega

/-- C5: for every batch, including the empty one, the generated summary
satisfies `normal_count + abnormal_count = total` and the severity
histogram's values sum to `total`; for the empty batch all counts are 0. -/
theorem claim_C5 (bs : List AnalyzedBiomarker) :
    (generate_summary bs).normal_count + (generate_summary bs).abnormal_count
        = (generate_summary bs).total_biomarkers
    ∧ sumCounts (generate_summary bs).severity_breakdown
        = (generate_summary bs).total_biomarkers
    ∧ (generate_summary ([] : List AnalyzedBiomarker)).total_biomarkers = 0
    ∧ (generate_summary ([] : List AnalyzedBiomarker)).normal_count = 0
    ∧ (generate_summary ([] : List AnalyzedBiomarker)).abnormal_count = 0
    ∧ sumCounts (generate_summary ([] : List AnalyzedBiomarker)).severity_breakdown = 0
    ∧ (generate_summary ([] : List AnalyzedBiomarker)).critical_count = 0 := by
  refine ⟨?_, ?_, rfl, rfl, rfl, rfl, rfl⟩
  · have hle : (bs.filter fun b => b.status == "normal").length ≤ bs.length :=
      List.length_filter_le _ _
    have h1 : (generate_summary bs).normal_count
        = (bs.filter fun b => b.status == "normal").length := rfl
    have h2 : (generate_summary bs).abnormal_count
        = bs.length - (bs.filter fun b => b.status == "normal").length := rfl
    have h3 : (generate_summary bs).total_biomarkers = bs.length := rfl
    rw [h1, h2, h3]
    omega
  · have h4 : (generate_summary bs).severity_breakdown
        = bs.foldl (fun acc b => bumpCount acc b.severity) [] := rfl
    have h3 : (generate_summary bs).total_biomarkers = bs.length := rfl
    rw [h4, h3, sumCounts_foldl_bump bs []]
    simp [sumCounts]

lemma mkBiomarker_type (bt : String) (m : List String) :
    (mkBiomarker bt m).type = bt := rfl

lemma parse_filter_eq_nil (findall : String → String → List (List String))
    (text key : String) (l : List (String × List String))
    (h : ∀ e ∈ l, e.1 ≠ key) :
    ((l.filterMap fun entry =>
        (tryPatterns findall text entry.2).map (mkBiomarker entry.1)).filter
      fun b => b.type == key) = [] := by
  induction l with
  | nil => rfl
  | cons e rest ih =>
    have he : e.1 ≠ key := h e (by simp)
    have hrest : ∀ e2 ∈ rest, e2.1 ≠ key := fun e2 h2 => h e2 (by simp [h2])
    cases htry : tryPatterns findall text e.2 with
    | none => simpa [List.filterMap_cons, htry] using ih hrest
    | some m =>
      simp [List.filterMap_cons, htry, List.filter_cons, mkBiomarker_type, he,
        ih hrest]

lemma parse_filter_le_one (findall : String → String → List (List String))
    (text key : String) (l : List (String × List String))
    (hnd : (l.map Prod.fst).Nodup) :
    ((l.filterMap fun entry =>
        (tryPatterns findall text entry.2).map (mkBiomarker entry.1)).filter
      fun b => b.type == key).length ≤ 1 := by
  induction l with
  | nil => simp
  | cons e rest ih =>
    have hnd' : (rest.map Prod.fst).Nodup := (List.nodup_cons.1 (by simpa using hnd)).2
    have hnotmem : e.1 ∉ rest.map Prod.fst := (List.nodup_cons.1 (by simpa using hnd)).1
    cases htry : tryPatterns findall text e.2 with
    | none => simpa [List.filterMap_cons, htry] using ih hnd'
    | some m =>
      by_cases hk : e.1 = key
      · have hrest : ∀ e2 ∈ rest, e2.1 ≠ key := by
          intro e2 h2 heq
          exact hnotmem (hk ▸ heq ▸ List.mem_map_of_mem Prod.fst h2)
        simp [List.filterMap_cons, htry, List.filter_cons, mkBiomarker_type, hk,
          parse_filter_eq_nil findall text key rest hrest]
      · simpa [List.filterMap_cons, htry, List.filter_cons, mkBiomarker_type, hk]
          using ih hnd'

/-- C3: recognition returns at most one observation per catalog key; it is
a pure function of the text (re-running yields the same list); and, with
every match carrying at least two groups (every catalog pattern has three),
the per-entry policy takes exactly the first match of the first alternative
that matches. -/
theorem claim_C3 (findall : String → String → List (List String)) (text : String) :
    (∀ key, ((parse_text findall text).filter fun b => b.type == key).length ≤ 1)
    ∧ parse_text findall text = parse_text findall text
    ∧ ((∀ p m, m ∈ findall p text → 2 ≤ m.length) →
        ∀ pats, tryPatterns findall text pats
          = specFirstAlternativeMatch findall text pats) := by
  refine ⟨?_, rfl, ?_⟩
  · intro key
    exact parse_filter_le_one findall text key biomarker_patterns (by decide)
  · intro hwf pats
    induction pats with
    | nil => rfl
    | cons p ps ih =>
      cases hf : findall p text with
      | nil =>
        simp [tryPatterns, firstValidMatch, hf, specFirstAlternativeMatch,
          List.find?] at ih ⊢
        exact ih
      | cons m ms =>
        have h2 : 2 ≤ m.length := hwf p m (by simp [hf])
        simp [tryPatterns, firstValidMatch, hf, h2, specFirstAlternativeMatch,
          List.find?]

/-- Witness for C3 with a concrete findall oracle on a hemoglobin line. -/
theorem claim_C3_witness :
    ((parse_text demoFindall "Hemoglobina: 14,5 g/dL").filter
        fun b => b.type == "hemoglobina").length ≤ 1
    ∧ tryPatterns demoFindall "Hemoglobina: 14,5 g/dL" [hbPattern1]
        = specFirstAlternativeMatch demoFindall "Hemoglobina: 14,5 g/dL"
            [hbPattern1] := by
  refine ⟨(claim_C3 demoFindall _).1 "hemoglobina",
    (claim_C3 demoFindall _).2.2 ?_ [hbPattern1]⟩
  intro p m hm
  unfold demoFindall at hm
  by_cases hp : (p == hbPattern1) = true
  · rw [if_pos hp] at hm
    simp at hm
    subst hm
    decide
  · rw [if_neg hp] at hm
    simp at hm

/-- C6: a failure while analyzing one observation does not abort the batch:
that observation is emitted with status `error`, severity `unknown` and an
interpretation carrying the error detail, while every other observation is
still analyzed normally and counted by the summary. -/
theorem claim_C6 (pre post : List BiomarkerDict) (b : BiomarkerDict)
    (ranges : List RefRangeDict) (exam_id e : String)
    (hfail : analyze_biomarkerE b ranges exam_id = Except.error e) :
    process_biomarkers (pre ++ b :: post) ranges exam_id
      = process_biomarkers pre ranges exam_id
        ++ analyze_biomarker b ranges exam_id
          :: process_biomarkers post ranges exam_id
    ∧ (analyze_biomarker b ranges exam_id).status = "error"
    ∧ (analyze_biomarker b ranges exam_id).severity = "unknown"
    ∧ (analyze_biomarker b ranges exam_id).interpretation
        = "Erro na análise: " ++ e
    ∧ (process_biomarkers (pre ++ b :: post) ranges exam_id).length
        = pre.length + 1 + post.length
    ∧ (generate_summary
        (process_biomarkers (pre ++ b :: post) ranges exam_id)).total_biomarkers
        = pre.length + 1 + post.length := by
  have hlen : (process_biomarkers (pre ++ b :: post) ranges exam_id).length
      = pre.length + 1 + post.length := by
    simp [process_biomarkers]
    omega
  refine ⟨?_, ?_, ?_, ?_, hlen, ?_⟩
  · simp [process_biomarkers]
  · simp [analyze_biomarker, hfail]
  · simp [analyze_biomarker, hfail]
  · simp [analyze_biomarker, hfail]
  · have h3 : ∀ l : List AnalyzedBiomarker,
        (generate_summary l).total_biomarkers = l.length := fun _ => rfl
    rw [h3, hlen]

/-- Witness for C6: an observation dict with the `value` key absent, between
two well-formed observations. -/
theorem claim_C6_witness :
    (analyze_biomarker badBiomarker [] "exam-1").status = "error"
    ∧ (analyze_biomarker badBiomarker [] "exam-1").severity = "unknown"
    ∧ (analyze_biomarker badBiomarker [] "exam-1").interpretation
        = "Erro na análise: " ++ "KeyError: value"
    ∧ (process_biomarkers ([okBiomarkerA] ++ badBiomarker :: [gluBiomarker])
        [] "exam-1").length = 3 := by
  have h := claim_C6 [okBiomarkerA] [gluBiomarker] badBiomarker [] "exam-1"
    "KeyError: value" (by rfl)
  exact ⟨h.2.1, h.2.2.1, h.2.2.2.1, h.2.2.2.2.1⟩

lemma calculate_severity_mem (v r : Rat) (d : String) :
    calculate_severity v r d = "unknown" ∨ calculate_severity v r d = "mild"
    ∨ calculate_severity v r d = "moderate"
    ∨ calculate_severity v r d = "severe"
    ∨ calculate_severity v r d = "critical" := by
  unfold calculate_severity
  by_cases h0 : r = 0
  · rw [if_pos h0]
    exact Or.inl rfl
  · rw [if_neg h0]
    dsimp only
    split_ifs <;> simp

lemma calculate_severity_ne_normal (v r : Rat) (d : String) :
    calculate_severity v r d ≠ "normal" := by
  rcases calculate_severity_mem v r d with h | h | h | h | h <;> rw [h] <;> decide

/-- In the complete-bounds case, the analyzer's status and severity come in
exactly three linked shapes. -/
lemma analyze_value_shapes (v : Rat) (u : String) (r : RefRangeDict)
    (mn mx : Rat) (hmn : r.min_value = some mn) (hmx : r.max_value = some mx) :
    ((analyze_value v u (some r)).status = "low"
      ∧ (analyze_value v u (some r)).severity = calculate_severity v mn "low")
    ∨ ((analyze_value v u (some r)).status = "high"
      ∧ (analyze_value v u (some r)).severity = calculate_severity v mx "high")
    ∨ ((analyze_value v u (some r)).status = "normal"
      ∧ (analyze_value v u (some r)).severity = "normal") := by
  simp only [analyze_value, hmn, hmx, convert_unit]
  split_ifs <;> simp

lemma analyze_value_incomplete_status (v : Rat) (u : String) (r : RefRangeDict)
    (h : r.min_value = none ∨ r.max_value = none) :
    (analyze_value v u (some r)).status = "unknown"
    ∧ (analyze_value v u (some r)).severity = "unknown" := by
  rcases h with h | h
  · cases hmx : r.max_value <;> simp [analyze_value, h, hmx]
  · cases hmn : r.min_value <;> simp [analyze_value, h, hmn]

lemma analyze_value_severity_normal_iff (v : Rat) (u : String)
    (rr : Option RefRangeDict) :
    (analyze_value v u rr).severity = "normal"
      ↔ (analyze_value v u rr).status = "normal" := by
  cases rr with
  | none => simp [analyze_value]
  | some r =>
    cases hmn : r.min_value with
    | none =>
      obtain ⟨h1, h2⟩ := analyze_value_incomplete_status v u r (Or.inl hmn)
      rw [h1, h2]
    | some mn =>
      cases hmx : r.max_value with
      | none =>
        obtain ⟨h1, h2⟩ := analyze_value_incomplete_status v u r (Or.inr hmx)
        rw [h1, h2]
      | some mx =>
        rcases analyze_value_shapes v u r mn mx hmn hmx with
          ⟨h1, h2⟩ | ⟨h1, h2⟩ | ⟨h1, h2⟩ <;> rw [h1, h2]
        · exact iff_of_false (calculate_severity_ne_normal _ _ _) (by decide)
        · exact iff_of_false (calculate_severity_ne_normal _ _ _) (by decide)

lemma analyze_value_status_unknown_iff (v : Rat) (u : String)
    (rr : Option RefRangeDict) :
    (analyze_value v u rr).status = "unknown"
      ↔ (rr = none
         ∨ ∃ r, rr = some r ∧ (r.min_value = none ∨ r.max_value = none)) := by
  cases rr with
  | none => exact iff_of_true rfl (Or.inl rfl)
  | some r =>
    cases hmn : r.min_value with
    | none =>
      exact iff_of_true (analyze_value_incomplete_status v u r (Or.inl hmn)).1
        (Or.inr ⟨r, rfl, Or.inl hmn⟩)
    | some mn =>
      cases hmx : r.max_value with
      | none =>
        exact iff_of_true (analyze_value_incomplete_status v u r (Or.inr hmx)).1
          (Or.inr ⟨r, rfl, Or.inr hmx⟩)
      | some mx =>
        have hrhs : ¬(some r = none
            ∨ ∃ r2, some r = some r2
                ∧ (r2.min_value = none ∨ r2.max_value = none)) := by
          rintro (h | ⟨r2, hr2, hopt⟩)
          · exact Option.noConfusion h
          · injection hr2 with hr2
            subst hr2
            rcases hopt with h | h
            · rw [hmn] at h; exact Option.noConfusion h
            · rw [hmx] at h; exact Option.noConfusion h
        rcases analyze_value_shapes v u r mn mx hmn hmx with
          ⟨h1, _⟩ | ⟨h1, _⟩ | ⟨h1, _⟩ <;> rw [h1]
        · exact iff_of_false (by decide) hrhs
        · exact iff_of_false (by decide) hrhs
        · exact iff_of_false (by decide) hrhs

lemma analyze_biomarker_cases (b : BiomarkerDict) (ranges : List RefRangeDict)
    (exam_id : String) :
    ((analyze_biomarker b ranges exam_id).status = "error"
      ∧ (analyze_biomarker b ranges exam_id).severity = "unknown")
    ∨ ∃ v u, b.value = some v ∧ b.unit = some u
        ∧ (analyze_biomarker b ranges exam_id).status
            = (analyze_value v u (find_matching_reference b ranges)).status
        ∧ (analyze_biomarker b ranges exam_id).severity
            = (analyze_value v u (find_matching_reference b ranges)).severity := by
  unfold analyze_biomarker analyze_biomarkerE
  cases hv : b.value with
  | none => left; exact ⟨rfl, rfl⟩
  | some v =>
    cases hu : b.unit with
    | none => left; exact ⟨rfl, rfl⟩
    | some u =>
      cases hrn : b.raw_name with
      | none => left; exact ⟨rfl, rfl⟩
      | some rn =>
        cases hnn : b.normalized_name with
        | none => left; exact ⟨rfl, rfl⟩
        | some nn =>
          cases hc : b.confidence with
          | none => left; exact ⟨rfl, rfl⟩
          | some c =>
            cases hrt : b.raw_text with
            | none => left; exact ⟨rfl, rfl⟩
            | some rt => right; exact ⟨v, u, rfl, rfl, rfl, rfl⟩

/-- C7 counterexample: a matching reference range IS found for this
observation (case-insensitive name match, compatible unit), yet because its
`min_value` column is null the analyzer still assigns status `unknown` —
refuting "status == unknown iff no matching ReferenceRange was found". -/
theorem claim_C7_counterexample :
    (analyze_biomarker gluBiomarker [incompleteRange] "exam-1").status
      = "unknown"
    ∧ find_matching_reference gluBiomarker [incompleteRange]
        = some incompleteRange := by
  exact ⟨rfl, rfl⟩

/-- C7 amended: `severity == normal` iff `status == normal`; and for every
analyzed biomarker that did not fail with status `error`, `status ==
unknown` holds iff no matching range was found or the matched range is
missing `min_value` or `max_value`. -/
theorem claim_C7_amended (b : BiomarkerDict) (ranges : List RefRangeDict)
    (exam_id : String) :
    ((analyze_biomarker b ranges exam_id).severity = "normal"
      ↔ (analyze_biomarker b ranges exam_id).status = "normal")
    ∧ ((analyze_biomarker b ranges exam_id).status ≠ "error" →
        ((analyze_biomarker b ranges exam_id).status = "unknown"
          ↔ (find_matching_reference b ranges = none
             ∨ ∃ r, find_matching_reference b ranges = some r
                 ∧ (r.min_value = none ∨ r.max_value = none)))) := by
  rcases analyze_biomarker_cases b ranges exam_id with
    ⟨hs, hsev⟩ | ⟨v, u, hv, hu, hs, hsev⟩
  · constructor
    · rw [hs, hsev]
      exact iff_of_false (by decide) (by decide)
    · intro h
      exact absurd hs h
  · constructor
    · rw [hs, hsev]
      exact analyze_value_severity_normal_iff v u _
    · intro _
      rw [hs]
      exact analyze_value_status_unknown_iff v u _

/-- Witness for C7's amended statement at the concrete incomplete-range
input. -/
theorem claim_C7_witness :
    ((analyze_biomarker gluBiomarker [incompleteRange] "exam-2").severity
        = "normal"
      ↔ (analyze_biomarker gluBiomarker [incompleteRange] "exam-2").status
        = "normal")
    ∧ ((analyze_biomarker gluBiomarker [incompleteRange] "exam-2").status
        = "unknown"
      ↔ (find_matching_reference gluBiomarker [incompleteRange] = none
         ∨ ∃ r, find_matching_reference gluBiomarker [incompleteRange] = some r
             ∧ (r.min_value = none ∨ r.max_value = none))) :=
  ⟨(claim_C7_amended gluBiomarker [incompleteRange] "exam-2").1,
   (claim_C7_amended gluBiomarker [incompleteRange] "exam-2").2 (by decide)⟩

/-- C8 counterexample: extraction of an empty text/plain input is a SUCCESS
result with empty text and confidence 0.0 — not a `CorruptInput` failure
(the code has no such error type). -/
theorem claim_C8_counterexample :
    process_file_text "" = OcrOutcome.ok "" 0 0 := rfl

/-- C8 amended: extraction of an empty text/plain input returns a
zero-confidence success with empty text; the text/plain path never returns
a failure result. -/
theorem claim_C8_thm :
    process_file_text "" = OcrOutcome.ok "" 0 0
    ∧ ∀ (content msg : String),
        process_file_text content ≠ OcrOutcome.err msg := by
  refine ⟨rfl, ?_⟩
  intro content msg h
  exact OcrOutcome.noConfusion h

/-- Witness for C8's never-fails clause. -/
theorem claim_C8_witness :
    process_file_text "abc" ≠ OcrOutcome.err "boom" :=
  claim_C8_thm.2 "abc" "boom"

lemma confidence_clamp_nonneg (x : Rat) : 0 ≤ min (max x 0) 100 :=
  le_min (le_max_right _ _) (by norm_num)

lemma confidence_clamp_le (x : Rat) : min (max x 0) 100 ≤ 100 :=
  min_le_right _ _

lemma confidence_formula_pos (a s q t : Rat) (ha : 0 ≤ a) (hs : 0 ≤ s)
    (ht : 0 < t) (hqt : q < t) :
    0 < min (max ((a / t * 0.6 + s / t * 0.2 + (1 - q / t) * 0.2) * 100) 0)
        100 := by
  have h1 : 0 ≤ a / t * 0.6 := by positivity
  have h2 : 0 ≤ s / t * 0.2 := by positivity
  have h3 : q / t < 1 := (div_lt_one ht).2 hqt
  have h4 : 0 < (1 - q / t) * 0.2 := by nlinarith
  have h5 : 0 < (a / t * 0.6 + s / t * 0.2 + (1 - q / t) * 0.2) * 100 := by
    nlinarith
  exact lt_min (lt_of_lt_of_le h5 (le_max_left _ _)) (by norm_num)

lemma length_filter_lt_of_mem_not {α : Type} (p : α → Bool) (l : List α)
    (c : α) (hc : c ∈ l) (hcp : p c = false) :
    (l.filter p).length < l.length := by
  induction l with
  | nil => cases hc
  | cons a rest ih =>
    rcases List.mem_cons.1 hc with h | h
    · subst h
      simp only [List.filter_cons, hcp, List.length_cons]
      exact Nat.lt_succ_of_le (List.length_filter_le _ _)
    · by_cases hpa : p a
      · simp only [List.filter_cons, hpa, if_true, List.length_cons]
        exact Nat.succ_lt_succ (ih h)
      · have hpa' : p a = false := by simpa using hpa
        simp only [List.filter_cons, hpa', Bool.false_eq_true, if_false,
          List.length_cons]
        exact Nat.lt_succ_of_lt (ih h)

lemma string_ne_empty_toList {s : String} (h : s ≠ "") : s.toList ≠ [] := by
  intro h0
  apply h
  cases s with
  | mk data =>
    have h1 : data = [] := h0
    subst h1
    rfl

/-- C9 counterexample: the text `"???"` is non-empty, yet its extraction
succeeds with confidence exactly 0 — refuting "confidence > 0 whenever the
input text is non-empty". -/
theorem claim_C9_counterexample :
    process_file_text "???" = OcrOutcome.ok "???" 0 3 ∧ "???" ≠ "" := by
  have e1 : ("???".toList.filter fun c => c.isAlphanum).length = 0 := by decide
  have e2 : ("???".toList.filter fun c => c == ' ').length = 0 := by decide
  have e3 : ("???".toList.filter fun c => c == '?').length = 3 := by decide
  have e4 : "???".length = 3 := by decide
  have h : calculate_confidence "???" = 0 := by
    unfold calculate_confidence
    rw [if_neg (by decide : ¬("???" == "") = true)]
    simp only [e1, e2, e3, e4]
    norm_num
  refine ⟨?_, by decide⟩
  show OcrOutcome.ok "???" (calculate_confidence "???") "???".length
    = OcrOutcome.ok "???" 0 3
  rw [h, e4]

/-- C9 amended: text/plain extraction returns the input verbatim with a
confidence that is a function of the text alone, clamped to [0, 100];
confidence is strictly positive whenever the text is non-empty and contains
at least one character other than the placeholder `?`. -/
theorem claim_C9_thm (content : String) :
    process_file_text content
      = OcrOutcome.ok content (calculate_confidence content) content.length
    ∧ 0 ≤ calculate_confidence content
    ∧ calculate_confidence content ≤ 100
    ∧ (content ≠ "" → (∃ c, c ∈ content.toList ∧ c ≠ '?') →
        0 < calculate_confidence content) := by
  refine ⟨rfl, ?_, ?_, ?_⟩
  · unfold calculate_confidence
    split_ifs with h
    · norm_num
    · exact confidence_clamp_nonneg _
  · unfold calculate_confidence
    split_ifs with h
    · norm_num
    · exact confidence_clamp_le _
  · intro hne hex
    obtain ⟨c, hc, hcq⟩ := hex
    have hbeq : ¬((content == "") = true) := by
      simpa using hne
    have hlenpos : 0 < content.length := by
      have h1 : content.toList ≠ [] := string_ne_empty_toList hne
      have h2 : content.length = content.toList.length := rfl
      rw [h2]
      exact List.length_pos.2 h1
    have htotal : (0 : Rat) < ((content.length : Nat) : Rat) := by
      exact_mod_cast hlenpos
    have hqnat : (content.toList.filter fun c => c == '?').length
        < content.length := by
      have h2 : content.length = content.toList.length := rfl
      rw [h2]
      exact length_filter_lt_of_mem_not _ _ c hc
        (by simpa using hcq)
    have hqrat : (((content.toList.filter fun c => c == '?').length : Nat) : Rat)
        < ((content.length : Nat) : Rat) := by
      exact_mod_cast hqnat
    unfold calculate_confidence
    rw [if_neg hbeq]
    exact confidence_formula_pos _ _ _ _ (by positivity) (by positivity)
      htotal hqrat

/-- Witness for C9's positivity clause at the text "ab". -/
theorem claim_C9_witness : 0 < calculate_confidence "ab" :=
  (claim_C9_thm "ab").2.2.2 (by decide) ⟨'a', by decide, by decide⟩

end ApiAnalysa
